import Mathlib

/-
Verification of the recipe-submission pipelines of the MSOM-Cookbook
repository. The repository has two source files, cookbook_site.py and
streamlit_cookbook.py, each a Streamlit page with a text-submission tab,
an image-submission tab and a listing tab. External collaborators (the
Supabase blob store and record store, the Tesseract OCR engine, the user
widgets) are modelled by explicit parameters; the effects the pipelines
issue against the record store and blob store are recorded as a trace.
-/

namespace Cookbook

/-- Models the Python idiom `value or None` on a string: an empty string
becomes absent, anything else is kept. -/
def strOrNone (s : String) : Option String :=
  if s = "" then none else some s

/-- Python str.lower, modelled characterwise. -/
def pyLower (s : String) : String :=
  String.mk (s.data.map Char.toLower)

/-- Splitting a character list on a separator character; like Python
str.split with an explicit separator, the result always has one more
part than there are separators, empty parts included. -/
def splitChar (sep : Char) : List Char → List (List Char)
  | [] => [[]]
  | c :: cs =>
    match splitChar sep cs with
    | [] => [[c]]
    | h :: t => if c = sep then [] :: h :: t else (c :: h) :: t

/-- Python str.split with a one-character separator. -/
def pySplit (s : String) (sep : Char) : List String :=
  (splitChar sep s.data).map String.mk

/-- The ASCII whitespace characters Python str.strip removes. -/
def pyIsSpace (c : Char) : Bool :=
  c = ' ' ∨ c = '\t' ∨ c = '\n' ∨ c = '\r' ∨ c = '\x0b' ∨ c = '\x0c'

/-- Python str.strip: whitespace removed from both ends. -/
def pyStrip (s : String) : String :=
  String.mk (((s.data.dropWhile pyIsSpace).reverse.dropWhile pyIsSpace).reverse)

/-- Replacing every occurrence of a single character by a replacement
list, as Python str.replace with a one-character pattern. -/
def replaceChar (pat : Char) (rep : List Char) : List Char → List Char
  | [] => []
  | c :: cs =>
    if c = pat then rep ++ replaceChar pat rep cs
    else c :: replaceChar pat rep cs

/-- Python `raw.replace("Z", "+00:00")` from the listing tab. -/
def replaceZ (s : String) : String :=
  String.mk (replaceChar 'Z' "+00:00".data s.data)

/-- The row handed to the record-store insert call
(`save_recipe_to_supabase` in both files). -/
structure RecipeRow where
  name : String
  description : Option String
  text : Option String
  image_url : Option String
deriving Repr, DecidableEq

/-- Observable effects a submission pipeline can issue: a user-visible
error message, a blob-store upload (storage path and content type), a
record-store insert, and a blob-store deletion. The deletion effect is
part of the vocabulary so that its absence from every trace is a
statement with content; no code path of the repository deletes a blob. -/
inductive Effect where
  | errorMsg : String → Effect
  | upload : String → String → Effect
  | insertRow : RecipeRow → Effect
  | deleteBlob : String → Effect
deriving Repr, DecidableEq

/-- The rows passed to the record-store insert inside a trace. -/
def insertedRows (tr : List Effect) : List RecipeRow :=
  tr.filterMap fun e =>
    match e with
    | Effect.insertRow r => some r
    | _ => none

/-- The fields of the text-submission form, common to both files. -/
structure TextForm where
  name : String
  short_desc : String
  ingredients : String
  instructions : String
deriving Repr, DecidableEq

end Cookbook

namespace CookbookSite

open Cookbook

/-- cookbook_site.py line 182: the composed body of a text submission. -/
def full_text (ingredients instructions : String) : String :=
  "Ingredients:\n" ++ ingredients ++ "\n\nInstructions:\n" ++ instructions

/-- cookbook_site.py lines 176-192: the text-submission tab after the
submit button. `insertOk` is false when the record-store insert raises. -/
def text_submit (insertOk : Bool) (form : TextForm) : List Effect :=
  if form.name = "" ∨ (form.ingredients = "" ∧ form.instructions = "") then
    [Effect.errorMsg "Please provide at least a name and some ingredients or instructions."]
  else
    [Effect.insertRow
      { name := form.name
        description := strOrNone form.short_desc
        text := some (full_text form.ingredients form.instructions)
        image_url := none }] ++
      (if insertOk then [] else [Effect.errorMsg "Error saving recipe"])

/-- cookbook_site.py lines 65-67: the normalized storage extension of an
uploaded file, the last dot-separated component of the filename
lowercased, defaulting to jpg when not one of png, jpg, jpeg. -/
def upload_file_ext (filename : String) : String :=
  let e := pyLower ((pySplit filename '.').getLastD "")
  if e = "png" ∨ e = "jpg" ∨ e = "jpeg" then e else "jpg"

/-- cookbook_site.py line 69: the storage path, the fresh unique
identifier is a parameter. -/
def upload_path (uuid filename : String) : String :=
  "recipes/" ++ uuid ++ "." ++ upload_file_ext filename

/-- cookbook_site.py line 75: the content type sent with the upload. -/
def upload_content_type (filename : String) : String :=
  "image/" ++ upload_file_ext filename

/-- cookbook_site.py lines 89-99, `ocr_image`: when Tesseract is
unavailable the function returns a placeholder message; otherwise the
engine either raises (modelled by `none`, the exception is caught and the
empty string returned) or returns text which is stripped. -/
def ocr_image (tesseractAvailable : Bool) (engineText : Option String) : String :=
  if tesseractAvailable = false then
    "OCR failed: Tesseract not found on the system."
  else
    match engineText with
    | none => ""
    | some t => pyStrip t

/-- cookbook_site.py lines 233-236: the image tab initializes the
extracted text to the empty string and only calls `ocr_image` when
Tesseract is available. -/
def pipeline_ocr_text (tesseractAvailable : Bool) (engineText : Option String) : String :=
  if tesseractAvailable then ocr_image tesseractAvailable engineText else ""

/-- The external collaborators of one image submission: OCR availability,
the OCR engine outcome (`none` when it raises), the blob-store outcome
(`none` when the upload fails to yield a URL), whether the record-store
insert succeeds, whether the image decodes, and the fresh identifier. -/
structure ImageEnv where
  tesseractAvailable : Bool
  engineText : Option String
  uploadUrl : Option String
  insertOk : Bool
  decodeOk : Bool
  uuid : String
deriving Repr, DecidableEq

/-- The fields of the image-submission form. `edit` is the value the user
commits in the editable text area: `none` keeps the extracted text. -/
structure ImageForm where
  name_img : String
  short_desc_img : String
  uploaded : Option String
  notes : String
  edit : Option String
deriving Repr, DecidableEq

/-- cookbook_site.py lines 247-252: the committed value of the editable
text area, whose initial value is the extracted text. -/
def edited_text (env : ImageEnv) (form : ImageForm) : String :=
  match form.edit with
  | some t => t
  | none => pipeline_ocr_text env.tesseractAvailable env.engineText

/-- cookbook_site.py lines 254-259: the composed body of an image
submission. -/
def combined_text (env : ImageEnv) (form : ImageForm) : String :=
  (if edited_text env form ≠ "" then
    "Recipe Details/OCR Text:\n" ++ edited_text env form ++ "\n\n" else "")
  ++ (if form.notes ≠ "" then "User Notes:\n" ++ form.notes else "")

/-- cookbook_site.py lines 222-276: the image tab after the submit
button, as a trace of effects. A missing image or a decode failure stops
before any upload; an upload failure stops before the insert; an insert
failure is caught and reported. -/
def image_submit (env : ImageEnv) (form : ImageForm) : List Effect :=
  match form.uploaded with
  | none => [Effect.errorMsg "Please upload an image to submit."]
  | some filename =>
    if env.decodeOk = false then
      [Effect.errorMsg "Fatal error saving image recipe"]
    else
      let uploadEff := Effect.upload (upload_path env.uuid filename) (upload_content_type filename)
      match env.uploadUrl with
      | none =>
        [uploadEff,
         Effect.errorMsg "Error uploading image to Supabase Storage. Check Bucket Name/Policies.",
         Effect.errorMsg "Image upload failed. Check Supabase Storage configuration/policies."]
      | some url =>
        [uploadEff,
         Effect.insertRow
           { name := if form.name_img = "" then "Untitled recipe" else form.name_img
             description := strOrNone form.short_desc_img
             text := strOrNone (combined_text env form)
             image_url := some url }] ++
          (if env.insertOk then [] else [Effect.errorMsg "Fatal error saving image recipe"])

/-- A record as fetched back from the record store; every field may be
absent. -/
structure StoredRecipe where
  name : Option String
  description : Option String
  created_at : Option String
  text : Option String
  image_url : Option String
deriving Repr, DecidableEq

/-- Python truthiness on an optional string field read with `r.get`:
absent and empty both count as missing. -/
def optTruthy (o : Option String) : Option String :=
  match o with
  | none => none
  | some s => strOrNone s

/-- cookbook_site.py lines 302-309: the caption shown for a timestamp.
`parseTs` models `datetime.fromisoformat` followed by `strftime`; the
raw value has Z replaced before parsing, and on a parse failure the raw
value itself is shown. -/
def render_timestamp (parseTs : String → Option String) (raw : String) : String :=
  match parseTs (replaceZ raw) with
  | some formatted => "Submitted on: " ++ formatted
  | none => "Submitted at: " ++ raw

/-- What the listing tab displays for one record. -/
structure RenderedRecipe where
  title : String
  description : Option String
  timestamp : Option String
  body : Option String
  image : Option String
deriving Repr, DecidableEq

/-- cookbook_site.py lines 296-318: rendering of one record in the
listing tab. -/
def render_recipe (parseTs : String → Option String) (r : StoredRecipe) : RenderedRecipe :=
  { title :=
      match optTruthy r.name with
      | some n => n
      | none => "Untitled recipe"
    description := optTruthy r.description
    timestamp := (optTruthy r.created_at).map (render_timestamp parseTs)
    body := optTruthy r.text
    image := optTruthy r.image_url }

/-- cookbook_site.py lines 292-318: the listing renders every fetched
record. -/
def render_listing (parseTs : String → Option String) (rs : List StoredRecipe) : List RenderedRecipe :=
  rs.map (render_recipe parseTs)

end CookbookSite

namespace StreamlitCookbook

open Cookbook

/-- streamlit_cookbook.py line 130: the composed body of a text
submission, identical to the other file. -/
def full_text (ingredients instructions : String) : String :=
  "Ingredients:\n" ++ ingredients ++ "\n\nInstructions:\n" ++ instructions

/-- streamlit_cookbook.py lines 124-140: the text-submission tab after
the submit button. -/
def text_submit (insertOk : Bool) (form : TextForm) : List Effect :=
  if form.name = "" ∨ (form.ingredients = "" ∧ form.instructions = "") then
    [Effect.errorMsg "Please provide at least a name and some ingredients or instructions."]
  else
    [Effect.insertRow
      { name := form.name
        description := strOrNone form.short_desc
        text := some (full_text form.ingredients form.instructions)
        image_url := none }] ++
      (if insertOk then [] else [Effect.errorMsg "Error saving recipe"])

/-- streamlit_cookbook.py lines 31-33: the normalized storage extension,
defaulting to png when not one of png, jpg, jpeg. -/
def upload_file_ext (filename : String) : String :=
  let e := pyLower ((pySplit filename '.').getLastD "")
  if e = "png" ∨ e = "jpg" ∨ e = "jpeg" then e else "png"

/-- streamlit_cookbook.py line 35: the storage path. -/
def upload_path (uuid filename : String) : String :=
  "recipes/" ++ uuid ++ "." ++ upload_file_ext filename

/-- streamlit_cookbook.py line 40: the content type sent with the
upload. -/
def upload_content_type (filename : String) : String :=
  "image/" ++ upload_file_ext filename

/-- streamlit_cookbook.py lines 51-58, `ocr_image`: the engine either
raises (modelled by `none`, caught and turned into the empty string) or
returns text which is stripped. This file has no availability check. -/
def ocr_image (engineText : Option String) : String :=
  match engineText with
  | none => ""
  | some t => pyStrip t

/-- streamlit_cookbook.py lines 183-187: the composed body of an image
submission; note the labels differ from the other file. -/
def combined_text (ocrText notes : String) : String :=
  (if ocrText ≠ "" then "OCR text:\n" ++ ocrText ++ "\n\n" else "")
  ++ (if notes ≠ "" then "Notes:\n" ++ notes else "")

/-- The external collaborators of one image submission in this file:
the OCR engine outcome, the blob-store outcome, whether the insert
succeeds, whether the image decodes, and the fresh identifier. -/
structure ImageEnv where
  engineText : Option String
  uploadUrl : Option String
  insertOk : Bool
  decodeOk : Bool
  uuid : String
deriving Repr, DecidableEq

/-- The fields of the image-submission form; this file has no editable
review area. -/
structure ImageForm where
  name_img : String
  short_desc_img : String
  uploaded : Option String
  notes : String
deriving Repr, DecidableEq

/-- streamlit_cookbook.py lines 165-204: the image tab after the submit
button, as a trace of effects. -/
def image_submit (env : ImageEnv) (form : ImageForm) : List Effect :=
  match form.uploaded with
  | none => [Effect.errorMsg "Please upload an image to submit."]
  | some filename =>
    if env.decodeOk = false then
      [Effect.errorMsg "Error saving image recipe"]
    else
      let ocrText := ocr_image env.engineText
      let uploadEff := Effect.upload (upload_path env.uuid filename) (upload_content_type filename)
      match env.uploadUrl with
      | none =>
        [uploadEff, Effect.errorMsg "Could not upload image."]
      | some url =>
        [uploadEff,
         Effect.insertRow
           { name := if form.name_img = "" then "Untitled recipe" else form.name_img
             description := strOrNone form.short_desc_img
             text := strOrNone (combined_text ocrText form.notes)
             image_url := some url }] ++
          (if env.insertOk then [] else [Effect.errorMsg "Error saving image recipe"])

/-- streamlit_cookbook.py lines 225-227: the timestamp line, always the
raw stored value. -/
def render_timestamp (raw : String) : String :=
  "Submitted at: " ++ raw

/-- streamlit_cookbook.py lines 219-236: rendering of one record in the
listing tab. -/
def render_recipe (r : CookbookSite.StoredRecipe) : CookbookSite.RenderedRecipe :=
  { title :=
      match CookbookSite.optTruthy r.name with
      | some n => n
      | none => "Untitled recipe"
    description := CookbookSite.optTruthy r.description
    timestamp := (CookbookSite.optTruthy r.created_at).map render_timestamp
    body := CookbookSite.optTruthy r.text
    image := CookbookSite.optTruthy r.image_url }

/-- streamlit_cookbook.py lines 216-236: the listing renders every
fetched record. -/
def render_listing (rs : List CookbookSite.StoredRecipe) : List CookbookSite.RenderedRecipe :=
  rs.map render_recipe

end StreamlitCookbook

namespace Cookbook

lemma append_ne_empty_left (s t : String) (h : s ≠ "") : s ++ t ≠ "" := by
  intro hc
  apply h
  have hd := congrArg String.data hc
  rw [String.data_append] at hd
  simp at hd
  cases s
  simp_all

lemma append_ne_empty_right (s t : String) (h : t ≠ "") : s ++ t ≠ "" := by
  intro hc
  apply h
  have hd := congrArg String.data hc
  rw [String.data_append] at hd
  simp at hd
  cases t
  simp_all

lemma strOrNone_ne_some_empty (s : String) : strOrNone s ≠ some "" := by
  by_cases h : s = "" <;> simp [strOrNone, h]

lemma strOrNone_cases (s : String) :
    strOrNone s = none ∨ ∃ t, strOrNone s = some t ∧ t ≠ "" := by
  by_cases h : s = ""
  · left; simp [strOrNone, h]
  · right; exact ⟨s, by simp [strOrNone, h], h⟩

end Cookbook

namespace CookbookSite

open Cookbook

lemma full_text_ne_empty (ingredients instructions : String) :
    full_text ingredients instructions ≠ "" := by
  unfold full_text
  apply append_ne_empty_left
  apply append_ne_empty_left
  apply append_ne_empty_left
  decide

lemma insertedRows_text_submit (insertOk : Bool) (form : TextForm) :
    insertedRows (text_submit insertOk form) =
      if form.name = "" ∨ (form.ingredients = "" ∧ form.instructions = "") then []
      else
        [{ name := form.name
           description := strOrNone form.short_desc
           text := some (full_text form.ingredients form.instructions)
           image_url := none }] := by
  unfold text_submit
  split <;> cases insertOk <;> simp [insertedRows]

lemma insertedRows_image_submit (env : ImageEnv) (form : ImageForm)
    (row : RecipeRow) (h : row ∈ insertedRows (image_submit env form)) :
    ∃ url, env.uploadUrl = some url ∧
      row =
        { name := if form.name_img = "" then "Untitled recipe" else form.name_img
          description := strOrNone form.short_desc_img
          text := strOrNone (combined_text env form)
          image_url := some url } := by
  cases hf : form.uploaded <;> cases hd : env.decodeOk <;> cases hu : env.uploadUrl <;>
    cases hok : env.insertOk <;>
      simp_all [image_submit, insertedRows]

lemma strOrNone_combined_text (env : ImageEnv) (form : ImageForm) :
    strOrNone (combined_text env form) =
      if edited_text env form = "" ∧ form.notes = "" then none
      else
        some ((if edited_text env form = "" then ""
               else "Recipe Details/OCR Text:\n" ++ edited_text env form ++ "\n\n")
          ++ (if form.notes = "" then "" else "User Notes:\n" ++ form.notes)) := by
  by_cases he : edited_text env form = "" <;> by_cases hn : form.notes = ""
  · simp [combined_text, he, hn, strOrNone]
  · have hne : combined_text env form ≠ "" := by
      unfold combined_text
      rw [he]
      simp only [ne_eq, not_true_eq_false, if_false, hn, not_false_eq_true, if_true]
      exact append_ne_empty_right _ _ (append_ne_empty_left _ _ (by decide))
    unfold strOrNone
    rw [if_neg hne]
    unfold combined_text
    rw [he]
    simp [hn]
  · have hne : combined_text env form ≠ "" := by
      unfold combined_text
      rw [hn]
      simp only [ne_eq, not_true_eq_false, if_false, he, not_false_eq_true, if_true]
      exact append_ne_empty_left _ _ (append_ne_empty_left _ _ (append_ne_empty_left _ _ (by decide)))
    unfold strOrNone
    rw [if_neg hne]
    unfold combined_text
    rw [hn]
    simp [he]
  · have hne : combined_text env form ≠ "" := by
      unfold combined_text
      simp only [ne_eq, he, not_false_eq_true, if_true]
      exact append_ne_empty_left _ _ (append_ne_empty_left _ _ (append_ne_empty_left _ _ (by decide)))
    unfold strOrNone
    rw [if_neg hne]
    unfold combined_text
    simp [he, hn]

end CookbookSite

namespace StreamlitCookbook

open Cookbook

lemma full_text_ne_empty_streamlit (ingredients instructions : String) :
    full_text ingredients instructions ≠ "" := by
  unfold full_text
  apply append_ne_empty_left
  apply append_ne_empty_left
  apply append_ne_empty_left
  decide

lemma insertedRows_text_submit_streamlit (insertOk : Bool) (form : TextForm) :
    insertedRows (text_submit insertOk form) =
      if form.name = "" ∨ (form.ingredients = "" ∧ form.instructions = "") then []
      else
        [{ name := form.name
           description := strOrNone form.short_desc
           text := some (full_text form.ingredients form.instructions)
           image_url := none }] := by
  unfold text_submit
  split <;> cases insertOk <;> simp [insertedRows]

lemma insertedRows_image_submit_streamlit (env : ImageEnv) (form : ImageForm)
    (row : RecipeRow) (h : row ∈ insertedRows (image_submit env form)) :
    ∃ url, env.uploadUrl = some url ∧
      row =
        { name := if form.name_img = "" then "Untitled recipe" else form.name_img
          description := strOrNone form.short_desc_img
          text := strOrNone (combined_text (ocr_image env.engineText) form.notes)
          image_url := some url } := by
  cases hf : form.uploaded <;> cases hd : env.decodeOk <;> cases hu : env.uploadUrl <;>
    cases hok : env.insertOk <;>
      simp_all [image_submit, insertedRows]

lemma strOrNone_combined_text_streamlit (ocrText notes : String) :
    strOrNone (combined_text ocrText notes) =
      if ocrText = "" ∧ notes = "" then none
      else
        some ((if ocrText = "" then "" else "OCR text:\n" ++ ocrText ++ "\n\n")
          ++ (if notes = "" then "" else "Notes:\n" ++ notes)) := by
  by_cases he : ocrText = "" <;> by_cases hn : notes = ""
  · simp [combined_text, he, hn, strOrNone]
  · have hne : combined_text ocrText notes ≠ "" := by
      unfold combined_text
      rw [he]
      simp only [ne_eq, not_true_eq_false, if_false, hn, not_false_eq_true, if_true]
      exact append_ne_empty_right _ _ (append_ne_empty_left _ _ (by decide))
    unfold strOrNone
    rw [if_neg hne]
    unfold combined_text
    rw [he]
    simp [hn]
  · have hne : combined_text ocrText notes ≠ "" := by
      unfold combined_text
      rw [hn]
      simp only [ne_eq, not_true_eq_false, if_false, he, not_false_eq_true, if_true]
      exact append_ne_empty_left _ _ (append_ne_empty_left _ _ (append_ne_empty_left _ _ (by decide)))
    unfold strOrNone
    rw [if_neg hne]
    unfold combined_text
    rw [hn]
    simp [he]
  · have hne : combined_text ocrText notes ≠ "" := by
      unfold combined_text
      simp only [ne_eq, he, not_false_eq_true, if_true]
      exact append_ne_empty_left _ _ (append_ne_empty_left _ _ (append_ne_empty_left _ _ (by decide)))
    unfold strOrNone
    rw [if_neg hne]
    unfold combined_text
    simp [he, hn]

end StreamlitCookbook

open Cookbook

/-- C1: for every text submission with non-empty name and at least one of
ingredients and instructions non-empty, both files insert exactly one
row whose text body is literally the Ingredients label, the ingredients,
a blank line, the Instructions label and the instructions, with
image_url absent. -/
theorem C1_text_body (okA okB : Bool) (form : TextForm)
    (hname : form.name ≠ "")
    (hbody : form.ingredients ≠ "" ∨ form.instructions ≠ "") :
    insertedRows (CookbookSite.text_submit okA form) =
      [{ name := form.name
         description := strOrNone form.short_desc
         text := some ("Ingredients:\n" ++ form.ingredients ++ "\n\nInstructions:\n" ++ form.instructions)
         image_url := none }] ∧
    insertedRows (StreamlitCookbook.text_submit okB form) =
      [{ name := form.name
         description := strOrNone form.short_desc
         text := some ("Ingredients:\n" ++ form.ingredients ++ "\n\nInstructions:\n" ++ form.instructions)
         image_url := none }] := by
  have hcond : ¬(form.name = "" ∨ (form.ingredients = "" ∧ form.instructions = "")) := by
    rcases hbody with h | h <;> simp [hname, h]
  rw [CookbookSite.insertedRows_text_submit, StreamlitCookbook.insertedRows_text_submit_streamlit,
    if_neg hcond, if_neg hcond]
  exact ⟨rfl, rfl⟩

/-- C1 witness: a concrete valid text submission. -/
theorem C1_text_body_witness :
    insertedRows (CookbookSite.text_submit true
      { name := "Pancakes", short_desc := "", ingredients := "2 eggs", instructions := "Mix" }) =
      [{ name := "Pancakes"
         description := strOrNone ""
         text := some ("Ingredients:\n" ++ "2 eggs" ++ "\n\nInstructions:\n" ++ "Mix")
         image_url := none }] ∧
    insertedRows (StreamlitCookbook.text_submit true
      { name := "Pancakes", short_desc := "", ingredients := "2 eggs", instructions := "Mix" }) =
      [{ name := "Pancakes"
         description := strOrNone ""
         text := some ("Ingredients:\n" ++ "2 eggs" ++ "\n\nInstructions:\n" ++ "Mix")
         image_url := none }] :=
  C1_text_body true true
    { name := "Pancakes", short_desc := "", ingredients := "2 eggs", instructions := "Mix" }
    (by decide) (Or.inl (by decide))

/-- C2 counterexample: in streamlit_cookbook.py an image submission with
extracted text "2 eggs" and empty notes inserts the body
"OCR text:\n2 eggs\n\n", not the block labelled
"Recipe Details/OCR Text:" that the claim requires. -/
theorem C2_counterexample :
    insertedRows (StreamlitCookbook.image_submit
      { engineText := some "2 eggs", uploadUrl := some "http://example.com/u",
        insertOk := true, decodeOk := true, uuid := "id0" }
      { name_img := "", short_desc_img := "", uploaded := some "a.png", notes := "" }) =
      [{ name := "Untitled recipe"
         description := none
         text := some "OCR text:\n2 eggs\n\n"
         image_url := some "http://example.com/u" }] ∧
    some "OCR text:\n2 eggs\n\n" ≠ some "Recipe Details/OCR Text:\n2 eggs\n\n" := by
  decide

/-- C2 (amended): every row an image submission inserts carries, in
cookbook_site.py, the block labelled "Recipe Details/OCR Text:" followed
by a blank line when the edited text is non-empty and then the block
labelled "User Notes:" when the notes are non-empty, and in
streamlit_cookbook.py the same structure with the labels "OCR text:" and
"Notes:"; in both files, when both parts are empty the text passed to
insert is absent, not the empty string. -/
theorem C2_composed_body (env : CookbookSite.ImageEnv) (form : CookbookSite.ImageForm)
    (envT : StreamlitCookbook.ImageEnv) (formT : StreamlitCookbook.ImageForm)
    (row rowT : RecipeRow)
    (h : row ∈ insertedRows (CookbookSite.image_submit env form))
    (hT : rowT ∈ insertedRows (StreamlitCookbook.image_submit envT formT)) :
    row.text =
      (if CookbookSite.edited_text env form = "" ∧ form.notes = "" then none
       else
         some ((if CookbookSite.edited_text env form = "" then ""
                else "Recipe Details/OCR Text:\n" ++ CookbookSite.edited_text env form ++ "\n\n")
           ++ (if form.notes = "" then "" else "User Notes:\n" ++ form.notes))) ∧
    rowT.text =
      (if StreamlitCookbook.ocr_image envT.engineText = "" ∧ formT.notes = "" then none
       else
         some ((if StreamlitCookbook.ocr_image envT.engineText = "" then ""
                else "OCR text:\n" ++ StreamlitCookbook.ocr_image envT.engineText ++ "\n\n")
           ++ (if formT.notes = "" then "" else "Notes:\n" ++ formT.notes))) := by
  obtain ⟨url, hu, rfl⟩ := CookbookSite.insertedRows_image_submit env form row h
  obtain ⟨urlT, huT, rfl⟩ := StreamlitCookbook.insertedRows_image_submit_streamlit envT formT rowT hT
  exact ⟨CookbookSite.strOrNone_combined_text env form,
    StreamlitCookbook.strOrNone_combined_text_streamlit _ _⟩

/-- C2 witness: concrete image submissions in both files, one with notes
and one without. -/
theorem C2_composed_body_witness :
    ({ name := "Untitled recipe"
       description := none
       text := some "Recipe Details/OCR Text:\n2 eggs\n\nUser Notes:\nx"
       image_url := some "http://u" } : RecipeRow) ∈
      insertedRows (CookbookSite.image_submit
        { tesseractAvailable := true, engineText := some "2 eggs", uploadUrl := some "http://u",
          insertOk := true, decodeOk := true, uuid := "id0" }
        { name_img := "", short_desc_img := "", uploaded := some "a.png", notes := "x",
          edit := none }) ∧
    ({ name := "Untitled recipe"
       description := none
       text := some "OCR text:\n2 eggs\n\n"
       image_url := some "http://u2" } : RecipeRow) ∈
      insertedRows (StreamlitCookbook.image_submit
        { engineText := some "2 eggs", uploadUrl := some "http://u2",
          insertOk := true, decodeOk := true, uuid := "id1" }
        { name_img := "", short_desc_img := "", uploaded := some "b.jpg", notes := "" }) ∧
    ({ name := "Untitled recipe"
       description := none
       text := some "Recipe Details/OCR Text:\n2 eggs\n\nUser Notes:\nx"
       image_url := some "http://u" } : RecipeRow).text =
      some "Recipe Details/OCR Text:\n2 eggs\n\nUser Notes:\nx" ∧
    ({ name := "Untitled recipe"
       description := none
       text := some "OCR text:\n2 eggs\n\n"
       image_url := some "http://u2" } : RecipeRow).text =
      some "OCR text:\n2 eggs\n\n" :=
  ⟨by decide, by decide,
    (C2_composed_body
      { tesseractAvailable := true, engineText := some "2 eggs", uploadUrl := some "http://u",
        insertOk := true, decodeOk := true, uuid := "id0" }
      { name_img := "", short_desc_img := "", uploaded := some "a.png", notes := "x",
        edit := none }
      { engineText := some "2 eggs", uploadUrl := some "http://u2",
        insertOk := true, decodeOk := true, uuid := "id1" }
      { name_img := "", short_desc_img := "", uploaded := some "b.jpg", notes := "" }
      { name := "Untitled recipe"
        description := none
        text := some "Recipe Details/OCR Text:\n2 eggs\n\nUser Notes:\nx"
        image_url := some "http://u" }
      { name := "Untitled recipe"
        description := none
        text := some "OCR text:\n2 eggs\n\n"
        image_url := some "http://u2" }
      (by decide) (by decide)).1,
    (C2_composed_body
      { tesseractAvailable := true, engineText := some "2 eggs", uploadUrl := some "http://u",
        insertOk := true, decodeOk := true, uuid := "id0" }
      { name_img := "", short_desc_img := "", uploaded := some "a.png", notes := "x",
        edit := none }
      { engineText := some "2 eggs", uploadUrl := some "http://u2",
        insertOk := true, decodeOk := true, uuid := "id1" }
      { name_img := "", short_desc_img := "", uploaded := some "b.jpg", notes := "" }
      { name := "Untitled recipe"
        description := none
        text := some "Recipe Details/OCR Text:\n2 eggs\n\nUser Notes:\nx"
        image_url := some "http://u" }
      { name := "Untitled recipe"
        description := none
        text := some "OCR text:\n2 eggs\n\n"
        image_url := some "http://u2" }
      (by decide) (by decide)).2⟩

/-- C3: for every text submission with empty name, or with both
ingredients and instructions empty, both files report an error and
perform no record-store insert. -/
theorem C3_text_validation (okA okB : Bool) (form : TextForm)
    (hbad : form.name = "" ∨ (form.ingredients = "" ∧ form.instructions = "")) :
    insertedRows (CookbookSite.text_submit okA form) = [] ∧
    (∃ m, Effect.errorMsg m ∈ CookbookSite.text_submit okA form) ∧
    insertedRows (StreamlitCookbook.text_submit okB form) = [] ∧
    (∃ m, Effect.errorMsg m ∈ StreamlitCookbook.text_submit okB form) := by
  refine ⟨?_,
    ⟨"Please provide at least a name and some ingredients or instructions.", ?_⟩, ?_,
    ⟨"Please provide at least a name and some ingredients or instructions.", ?_⟩⟩
  · rw [CookbookSite.insertedRows_text_submit, if_pos hbad]
  · unfold CookbookSite.text_submit
    rw [if_pos hbad]
    exact List.mem_cons_self _ _
  · rw [StreamlitCookbook.insertedRows_text_submit_streamlit, if_pos hbad]
  · unfold StreamlitCookbook.text_submit
    rw [if_pos hbad]
    exact List.mem_cons_self _ _

/-- C3 witness: a concrete text submission with an empty name. -/
theorem C3_text_validation_witness :
    insertedRows (CookbookSite.text_submit true
      { name := "", short_desc := "", ingredients := "2 eggs", instructions := "" }) = [] ∧
    (∃ m, Effect.errorMsg m ∈ CookbookSite.text_submit true
      { name := "", short_desc := "", ingredients := "2 eggs", instructions := "" }) ∧
    insertedRows (StreamlitCookbook.text_submit true
      { name := "", short_desc := "", ingredients := "2 eggs", instructions := "" }) = [] ∧
    (∃ m, Effect.errorMsg m ∈ StreamlitCookbook.text_submit true
      { name := "", short_desc := "", ingredients := "2 eggs", instructions := "" }) :=
  C3_text_validation true true
    { name := "", short_desc := "", ingredients := "2 eggs", instructions := "" }
    (Or.inl rfl)

/-- C5 counterexample: in streamlit_cookbook.py an upload named
"file.bmp" is stored with extension png and content type "image/png",
not the default jpg the claim states. -/
theorem C5_counterexample :
    StreamlitCookbook.image_submit
      { engineText := none, uploadUrl := none, insertOk := true, decodeOk := true, uuid := "id0" }
      { name_img := "", short_desc_img := "", uploaded := some "file.bmp", notes := "" } =
      [Effect.upload "recipes/id0.png" "image/png",
       Effect.errorMsg "Could not upload image."] ∧
    ("image/png" : String) ≠ "image/jpg" := by
  decide

/-- C5 (amended): for every uploaded file, the storage extension is the
last dot-separated component of the filename lowercased when that is one
of png, jpg, jpeg, and otherwise defaults to jpg in cookbook_site.py and
to png in streamlit_cookbook.py; in both files the storage path is the
fresh identifier under recipes/ with that extension and the upload
content type is image/ followed by that extension. -/
theorem C5_storage_path (env : CookbookSite.ImageEnv) (form : CookbookSite.ImageForm)
    (envT : StreamlitCookbook.ImageEnv) (formT : StreamlitCookbook.ImageForm)
    (f fT p c pT cT : String)
    (hf : form.uploaded = some f) (hfT : formT.uploaded = some fT)
    (hp : Effect.upload p c ∈ CookbookSite.image_submit env form)
    (hpT : Effect.upload pT cT ∈ StreamlitCookbook.image_submit envT formT) :
    (p = "recipes/" ++ env.uuid ++ "." ++ CookbookSite.upload_file_ext f ∧
     c = "image/" ++ CookbookSite.upload_file_ext f ∧
     (pyLower ((pySplit f '.').getLastD "") = "png" ∨
        pyLower ((pySplit f '.').getLastD "") = "jpg" ∨
        pyLower ((pySplit f '.').getLastD "") = "jpeg" →
       CookbookSite.upload_file_ext f = pyLower ((pySplit f '.').getLastD "")) ∧
     (¬(pyLower ((pySplit f '.').getLastD "") = "png" ∨
        pyLower ((pySplit f '.').getLastD "") = "jpg" ∨
        pyLower ((pySplit f '.').getLastD "") = "jpeg") →
       CookbookSite.upload_file_ext f = "jpg")) ∧
    (pT = "recipes/" ++ envT.uuid ++ "." ++ StreamlitCookbook.upload_file_ext fT ∧
     cT = "image/" ++ StreamlitCookbook.upload_file_ext fT ∧
     (pyLower ((pySplit fT '.').getLastD "") = "png" ∨
        pyLower ((pySplit fT '.').getLastD "") = "jpg" ∨
        pyLower ((pySplit fT '.').getLastD "") = "jpeg" →
       StreamlitCookbook.upload_file_ext fT = pyLower ((pySplit fT '.').getLastD "")) ∧
     (¬(pyLower ((pySplit fT '.').getLastD "") = "png" ∨
        pyLower ((pySplit fT '.').getLastD "") = "jpg" ∨
        pyLower ((pySplit fT '.').getLastD "") = "jpeg") →
       StreamlitCookbook.upload_file_ext fT = "png")) := by
  have hpc : p = CookbookSite.upload_path env.uuid f ∧ c = CookbookSite.upload_content_type f := by
    cases hd : env.decodeOk <;> cases hu : env.uploadUrl <;> cases hok : env.insertOk <;>
      simp_all [CookbookSite.image_submit]
  have hpcT : pT = StreamlitCookbook.upload_path envT.uuid fT ∧
      cT = StreamlitCookbook.upload_content_type fT := by
    cases hd : envT.decodeOk <;> cases hu : envT.uploadUrl <;> cases hok : envT.insertOk <;>
      simp_all [StreamlitCookbook.image_submit]
  refine ⟨⟨hpc.1, hpc.2, ?_, ?_⟩, ⟨hpcT.1, hpcT.2, ?_, ?_⟩⟩
  · intro h
    unfold CookbookSite.upload_file_ext
    rw [if_pos h]
  · intro h
    unfold CookbookSite.upload_file_ext
    rw [if_neg h]
  · intro h
    unfold StreamlitCookbook.upload_file_ext
    rw [if_pos h]
  · intro h
    unfold StreamlitCookbook.upload_file_ext
    rw [if_neg h]

/-- C5 witness: a concrete upload named photo.JPG in cookbook_site.py
and one named file.bmp in streamlit_cookbook.py. -/
theorem C5_storage_path_witness :
    Effect.upload "recipes/id0.jpg" "image/jpg" ∈
      CookbookSite.image_submit
        { tesseractAvailable := false, engineText := none, uploadUrl := some "http://u",
          insertOk := true, decodeOk := true, uuid := "id0" }
        { name_img := "", short_desc_img := "", uploaded := some "photo.JPG", notes := "",
          edit := none } ∧
    Effect.upload "recipes/id1.png" "image/png" ∈
      StreamlitCookbook.image_submit
        { engineText := none, uploadUrl := some "http://u2", insertOk := true,
          decodeOk := true, uuid := "id1" }
        { name_img := "", short_desc_img := "", uploaded := some "file.bmp", notes := "" } ∧
    ("recipes/id0.jpg" : String) = "recipes/" ++ "id0" ++ "." ++ CookbookSite.upload_file_ext "photo.JPG" ∧
    ("image/jpg" : String) = "image/" ++ CookbookSite.upload_file_ext "photo.JPG" ∧
    ("recipes/id1.png" : String) = "recipes/" ++ "id1" ++ "." ++ StreamlitCookbook.upload_file_ext "file.bmp" ∧
    ("image/png" : String) = "image/" ++ StreamlitCookbook.upload_file_ext "file.bmp" :=
  ⟨by decide, by decide,
    (C5_storage_path
      { tesseractAvailable := false, engineText := none, uploadUrl := some "http://u",
        insertOk := true, decodeOk := true, uuid := "id0" }
      { name_img := "", short_desc_img := "", uploaded := some "photo.JPG", notes := "",
        edit := none }
      { engineText := none, uploadUrl := some "http://u2", insertOk := true,
        decodeOk := true, uuid := "id1" }
      { name_img := "", short_desc_img := "", uploaded := some "file.bmp", notes := "" }
      "photo.JPG" "file.bmp" "recipes/id0.jpg" "image/jpg" "recipes/id1.png" "image/png"
      rfl rfl (by decide) (by decide)).1.1,
    (C5_storage_path
      { tesseractAvailable := false, engineText := none, uploadUrl := some "http://u",
        insertOk := true, decodeOk := true, uuid := "id0" }
      { name_img := "", short_desc_img := "", uploaded := some "photo.JPG", notes := "",
        edit := none }
      { engineText := none, uploadUrl := some "http://u2", insertOk := true,
        decodeOk := true, uuid := "id1" }
      { name_img := "", short_desc_img := "", uploaded := some "file.bmp", notes := "" }
      "photo.JPG" "file.bmp" "recipes/id0.jpg" "image/jpg" "recipes/id1.png" "image/png"
      rfl rfl (by decide) (by decide)).1.2.1,
    (C5_storage_path
      { tesseractAvailable := false, engineText := none, uploadUrl := some "http://u",
        insertOk := true, decodeOk := true, uuid := "id0" }
      { name_img := "", short_desc_img := "", uploaded := some "photo.JPG", notes := "",
        edit := none }
      { engineText := none, uploadUrl := some "http://u2", insertOk := true,
        decodeOk := true, uuid := "id1" }
      { name_img := "", short_desc_img := "", uploaded := some "file.bmp", notes := "" }
      "photo.JPG" "file.bmp" "recipes/id0.jpg" "image/jpg" "recipes/id1.png" "image/png"
      rfl rfl (by decide) (by decide)).2.1,
    (C5_storage_path
      { tesseractAvailable := false, engineText := none, uploadUrl := some "http://u",
        insertOk := true, decodeOk := true, uuid := "id0" }
      { name_img := "", short_desc_img := "", uploaded := some "photo.JPG", notes := "",
        edit := none }
      { engineText := none, uploadUrl := some "http://u2", insertOk := true,
        decodeOk := true, uuid := "id1" }
      { name_img := "", short_desc_img := "", uploaded := some "file.bmp", notes := "" }
      "photo.JPG" "file.bmp" "recipes/id0.jpg" "image/jpg" "recipes/id1.png" "image/png"
      rfl rfl (by decide) (by decide)).2.2.1⟩

/-- C4: for every image submission in which the upload yields no URL,
both files report an error and perform no record-store insert. -/
theorem C4_upload_failure (env : CookbookSite.ImageEnv) (form : CookbookSite.ImageForm)
    (envT : StreamlitCookbook.ImageEnv) (formT : StreamlitCookbook.ImageForm)
    (f fT : String)
    (hf : form.uploaded = some f) (hd : env.decodeOk = true) (hu : env.uploadUrl = none)
    (hfT : formT.uploaded = some fT) (hdT : envT.decodeOk = true) (huT : envT.uploadUrl = none) :
    insertedRows (CookbookSite.image_submit env form) = [] ∧
    (∃ m, Effect.errorMsg m ∈ CookbookSite.image_submit env form) ∧
    insertedRows (StreamlitCookbook.image_submit envT formT) = [] ∧
    (∃ m, Effect.errorMsg m ∈ StreamlitCookbook.image_submit envT formT) := by
  unfold CookbookSite.image_submit StreamlitCookbook.image_submit
  rw [hf, hfT, hd, hdT, hu, huT]
  simp [insertedRows]

/-- C4 witness: a concrete image submission whose upload fails. -/
theorem C4_upload_failure_witness :
    insertedRows (CookbookSite.image_submit
      { tesseractAvailable := false, engineText := none, uploadUrl := none,
        insertOk := true, decodeOk := true, uuid := "id0" }
      { name_img := "", short_desc_img := "", uploaded := some "a.png", notes := "",
        edit := none }) = [] ∧
    (∃ m, Effect.errorMsg m ∈ CookbookSite.image_submit
      { tesseractAvailable := false, engineText := none, uploadUrl := none,
        insertOk := true, decodeOk := true, uuid := "id0" }
      { name_img := "", short_desc_img := "", uploaded := some "a.png", notes := "",
        edit := none }) ∧
    insertedRows (StreamlitCookbook.image_submit
      { engineText := none, uploadUrl := none, insertOk := true, decodeOk := true, uuid := "id0" }
      { name_img := "", short_desc_img := "", uploaded := some "a.png", notes := "" }) = [] ∧
    (∃ m, Effect.errorMsg m ∈ StreamlitCookbook.image_submit
      { engineText := none, uploadUrl := none, insertOk := true, decodeOk := true, uuid := "id0" }
      { name_img := "", short_desc_img := "", uploaded := some "a.png", notes := "" }) :=
  C4_upload_failure
    { tesseractAvailable := false, engineText := none, uploadUrl := none,
      insertOk := true, decodeOk := true, uuid := "id0" }
    { name_img := "", short_desc_img := "", uploaded := some "a.png", notes := "",
      edit := none }
    { engineText := none, uploadUrl := none, insertOk := true, decodeOk := true, uuid := "id0" }
    { name_img := "", short_desc_img := "", uploaded := some "a.png", notes := "" }
    "a.png" "a.png" rfl rfl rfl rfl rfl rfl

/-- C6: OCR is best-effort: with OCR enabled, an engine failure yields
an empty extracted string, and when OCR is unavailable the pipeline
likewise uses the empty string, never a non-empty placeholder; in either
file the submission continues to the upload step rather than aborting. -/
theorem C6_ocr_best_effort (env : CookbookSite.ImageEnv) (form : CookbookSite.ImageForm)
    (envT : StreamlitCookbook.ImageEnv) (formT : StreamlitCookbook.ImageForm)
    (eng : Option String) (f fT : String)
    (hen : env.tesseractAvailable = true) (hfail : env.engineText = none)
    (hf : form.uploaded = some f) (hd : env.decodeOk = true)
    (hfailT : envT.engineText = none) (hfT : formT.uploaded = some fT)
    (hdT : envT.decodeOk = true) :
    CookbookSite.pipeline_ocr_text env.tesseractAvailable env.engineText = "" ∧
    CookbookSite.pipeline_ocr_text false eng = "" ∧
    (∃ p c, Effect.upload p c ∈ CookbookSite.image_submit env form) ∧
    StreamlitCookbook.ocr_image envT.engineText = "" ∧
    (∃ p c, Effect.upload p c ∈ StreamlitCookbook.image_submit envT formT) := by
  refine ⟨?_, ?_, ?_, ?_, ?_⟩
  · simp [CookbookSite.pipeline_ocr_text, CookbookSite.ocr_image, hen, hfail]
  · simp [CookbookSite.pipeline_ocr_text]
  · refine ⟨CookbookSite.upload_path env.uuid f, CookbookSite.upload_content_type f, ?_⟩
    cases hu : env.uploadUrl <;> cases hok : env.insertOk <;>
      simp [CookbookSite.image_submit, hf, hd, hu, hok]
  · simp [StreamlitCookbook.ocr_image, hfailT]
  · refine ⟨StreamlitCookbook.upload_path envT.uuid fT, StreamlitCookbook.upload_content_type fT, ?_⟩
    cases hu : envT.uploadUrl <;> cases hok : envT.insertOk <;>
      simp [StreamlitCookbook.image_submit, hfT, hdT, hu, hok]

/-- C6 witness: a concrete submission in each file with a failing OCR
engine. -/
theorem C6_ocr_best_effort_witness :
    CookbookSite.pipeline_ocr_text true none = "" ∧
    CookbookSite.pipeline_ocr_text false (some "boom") = "" ∧
    (∃ p c, Effect.upload p c ∈ CookbookSite.image_submit
      { tesseractAvailable := true, engineText := none, uploadUrl := some "http://u",
        insertOk := true, decodeOk := true, uuid := "id0" }
      { name_img := "", short_desc_img := "", uploaded := some "a.png", notes := "",
        edit := none }) ∧
    StreamlitCookbook.ocr_image none = "" ∧
    (∃ p c, Effect.upload p c ∈ StreamlitCookbook.image_submit
      { engineText := none, uploadUrl := some "http://u2", insertOk := true,
        decodeOk := true, uuid := "id1" }
      { name_img := "", short_desc_img := "", uploaded := some "b.jpg", notes := "" }) :=
  C6_ocr_best_effort
    { tesseractAvailable := true, engineText := none, uploadUrl := some "http://u",
      insertOk := true, decodeOk := true, uuid := "id0" }
    { name_img := "", short_desc_img := "", uploaded := some "a.png", notes := "",
      edit := none }
    { engineText := none, uploadUrl := some "http://u2", insertOk := true,
      decodeOk := true, uuid := "id1" }
    { name_img := "", short_desc_img := "", uploaded := some "b.jpg", notes := "" }
    (some "boom") "a.png" "b.jpg" rfl rfl rfl rfl rfl rfl rfl

/-- C7: every row either pipeline of either file inserts has a non-empty
text body or a non-empty image URL; the text path always composes a
non-empty body and the image path only inserts with the URL the blob
store returned, assumed non-empty as in the blob-store contract. -/
theorem C7_inserted_invariant (okA okB : Bool) (tfA tfB : TextForm)
    (env : CookbookSite.ImageEnv) (form : CookbookSite.ImageForm)
    (envT : StreamlitCookbook.ImageEnv) (formT : StreamlitCookbook.ImageForm)
    (hu : ∀ u, env.uploadUrl = some u → u ≠ "")
    (huT : ∀ u, envT.uploadUrl = some u → u ≠ "")
    (row : RecipeRow)
    (hrow : row ∈ insertedRows (CookbookSite.text_submit okA tfA) ∨
      row ∈ insertedRows (StreamlitCookbook.text_submit okB tfB) ∨
      row ∈ insertedRows (CookbookSite.image_submit env form) ∨
      row ∈ insertedRows (StreamlitCookbook.image_submit envT formT)) :
    (∃ t, row.text = some t ∧ t ≠ "") ∨ (∃ u, row.image_url = some u ∧ u ≠ "") := by
  rcases hrow with h | h | h | h
  · rw [CookbookSite.insertedRows_text_submit] at h
    split at h
    · simp at h
    · simp at h
      subst h
      exact Or.inl ⟨_, rfl, CookbookSite.full_text_ne_empty _ _⟩
  · rw [StreamlitCookbook.insertedRows_text_submit_streamlit] at h
    split at h
    · simp at h
    · simp at h
      subst h
      exact Or.inl ⟨_, rfl, StreamlitCookbook.full_text_ne_empty_streamlit _ _⟩
  · obtain ⟨url, hurl, rfl⟩ := CookbookSite.insertedRows_image_submit env form row h
    exact Or.inr ⟨url, rfl, hu url hurl⟩
  · obtain ⟨url, hurl, rfl⟩ := StreamlitCookbook.insertedRows_image_submit_streamlit envT formT row h
    exact Or.inr ⟨url, rfl, huT url hurl⟩

/-- C7 witness: a concrete row inserted by the text pipeline. -/
theorem C7_inserted_invariant_witness :
    (∃ t, ({ name := "Pancakes"
             description := none
             text := some "Ingredients:\n2 eggs\n\nInstructions:\nMix"
             image_url := none } : RecipeRow).text = some t ∧ t ≠ "") ∨
    (∃ u, ({ name := "Pancakes"
             description := none
             text := some "Ingredients:\n2 eggs\n\nInstructions:\nMix"
             image_url := none } : RecipeRow).image_url = some u ∧ u ≠ "") :=
  C7_inserted_invariant true true
    { name := "Pancakes", short_desc := "", ingredients := "2 eggs", instructions := "Mix" }
    { name := "Pancakes", short_desc := "", ingredients := "2 eggs", instructions := "Mix" }
    { tesseractAvailable := false, engineText := none, uploadUrl := none,
      insertOk := true, decodeOk := true, uuid := "id0" }
    { name_img := "", short_desc_img := "", uploaded := none, notes := "", edit := none }
    { engineText := none, uploadUrl := none, insertOk := true, decodeOk := true, uuid := "id1" }
    { name_img := "", short_desc_img := "", uploaded := none, notes := "" }
    (by intro u h; simp at h) (by intro u h; simp at h)
    { name := "Pancakes"
      description := none
      text := some "Ingredients:\n2 eggs\n\nInstructions:\nMix"
      image_url := none }
    (Or.inl (by decide))

/-- C8: for every image submission in which the upload succeeds and the
insert then fails, both files report the error, the upload and the
insert attempt are in the trace, and no blob-store deletion is ever
issued, so the uploaded blob stays in storage. -/
theorem C8_no_rollback (env : CookbookSite.ImageEnv) (form : CookbookSite.ImageForm)
    (envT : StreamlitCookbook.ImageEnv) (formT : StreamlitCookbook.ImageForm)
    (f fT url urlT : String)
    (hf : form.uploaded = some f) (hd : env.decodeOk = true)
    (hu : env.uploadUrl = some url) (hins : env.insertOk = false)
    (hfT : formT.uploaded = some fT) (hdT : envT.decodeOk = true)
    (huT : envT.uploadUrl = some urlT) (hinsT : envT.insertOk = false) :
    ((∃ p c, Effect.upload p c ∈ CookbookSite.image_submit env form) ∧
     (∃ r, Effect.insertRow r ∈ CookbookSite.image_submit env form) ∧
     (∃ m, Effect.errorMsg m ∈ CookbookSite.image_submit env form) ∧
     (∀ q, Effect.deleteBlob q ∉ CookbookSite.image_submit env form)) ∧
    ((∃ p c, Effect.upload p c ∈ StreamlitCookbook.image_submit envT formT) ∧
     (∃ r, Effect.insertRow r ∈ StreamlitCookbook.image_submit envT formT) ∧
     (∃ m, Effect.errorMsg m ∈ StreamlitCookbook.image_submit envT formT) ∧
     (∀ q, Effect.deleteBlob q ∉ StreamlitCookbook.image_submit envT formT)) := by
  constructor
  · refine ⟨⟨CookbookSite.upload_path env.uuid f, CookbookSite.upload_content_type f, ?_⟩,
      ⟨{ name := if form.name_img = "" then "Untitled recipe" else form.name_img
         description := strOrNone form.short_desc_img
         text := strOrNone (CookbookSite.combined_text env form)
         image_url := some url }, ?_⟩,
      ⟨"Fatal error saving image recipe", ?_⟩, ?_⟩ <;>
      simp [CookbookSite.image_submit, hf, hd, hu, hins]
  · refine ⟨⟨StreamlitCookbook.upload_path envT.uuid fT, StreamlitCookbook.upload_content_type fT, ?_⟩,
      ⟨{ name := if formT.name_img = "" then "Untitled recipe" else formT.name_img
         description := strOrNone formT.short_desc_img
         text := strOrNone (StreamlitCookbook.combined_text
           (StreamlitCookbook.ocr_image envT.engineText) formT.notes)
         image_url := some urlT }, ?_⟩,
      ⟨"Error saving image recipe", ?_⟩, ?_⟩ <;>
      simp [StreamlitCookbook.image_submit, hfT, hdT, huT, hinsT]

/-- C8 witness: a concrete image submission in each file with a
successful upload and a failing insert. -/
theorem C8_no_rollback_witness :
    ((∃ p c, Effect.upload p c ∈ CookbookSite.image_submit
       { tesseractAvailable := false, engineText := none, uploadUrl := some "http://u",
         insertOk := false, decodeOk := true, uuid := "id0" }
       { name_img := "", short_desc_img := "", uploaded := some "a.png", notes := "",
         edit := none }) ∧
     (∃ r, Effect.insertRow r ∈ CookbookSite.image_submit
       { tesseractAvailable := false, engineText := none, uploadUrl := some "http://u",
         insertOk := false, decodeOk := true, uuid := "id0" }
       { name_img := "", short_desc_img := "", uploaded := some "a.png", notes := "",
         edit := none }) ∧
     (∃ m, Effect.errorMsg m ∈ CookbookSite.image_submit
       { tesseractAvailable := false, engineText := none, uploadUrl := some "http://u",
         insertOk := false, decodeOk := true, uuid := "id0" }
       { name_img := "", short_desc_img := "", uploaded := some "a.png", notes := "",
         edit := none }) ∧
     (∀ q, Effect.deleteBlob q ∉ CookbookSite.image_submit
       { tesseractAvailable := false, engineText := none, uploadUrl := some "http://u",
         insertOk := false, decodeOk := true, uuid := "id0" }
       { name_img := "", short_desc_img := "", uploaded := some "a.png", notes := "",
         edit := none })) ∧
    ((∃ p c, Effect.upload p c ∈ StreamlitCookbook.image_submit
       { engineText := none, uploadUrl := some "http://u2", insertOk := false,
         decodeOk := true, uuid := "id1" }
       { name_img := "", short_desc_img := "", uploaded := some "b.jpg", notes := "" }) ∧
     (∃ r, Effect.insertRow r ∈ StreamlitCookbook.image_submit
       { engineText := none, uploadUrl := some "http://u2", insertOk := false,
         decodeOk := true, uuid := "id1" }
       { name_img := "", short_desc_img := "", uploaded := some "b.jpg", notes := "" }) ∧
     (∃ m, Effect.errorMsg m ∈ StreamlitCookbook.image_submit
       { engineText := none, uploadUrl := some "http://u2", insertOk := false,
         decodeOk := true, uuid := "id1" }
       { name_img := "", short_desc_img := "", uploaded := some "b.jpg", notes := "" }) ∧
     (∀ q, Effect.deleteBlob q ∉ StreamlitCookbook.image_submit
       { engineText := none, uploadUrl := some "http://u2", insertOk := false,
         decodeOk := true, uuid := "id1" }
       { name_img := "", short_desc_img := "", uploaded := some "b.jpg", notes := "" })) :=
  C8_no_rollback
    { tesseractAvailable := false, engineText := none, uploadUrl := some "http://u",
      insertOk := false, decodeOk := true, uuid := "id0" }
    { name_img := "", short_desc_img := "", uploaded := some "a.png", notes := "",
      edit := none }
    { engineText := none, uploadUrl := some "http://u2", insertOk := false,
      decodeOk := true, uuid := "id1" }
    { name_img := "", short_desc_img := "", uploaded := some "b.jpg", notes := "" }
    "a.png" "b.jpg" "http://u" "http://u2" rfl rfl rfl rfl rfl rfl rfl rfl

/-- C9: in the listing, a record whose created_at is present but fails
timestamp parsing is still rendered, with the raw value as its displayed
timestamp, and every fetched record produces exactly one rendered entry
regardless. -/
theorem C9_timestamp_fallback (parseTs : String → Option String)
    (r : CookbookSite.StoredRecipe) (raw : String) (rs : List CookbookSite.StoredRecipe)
    (hc : r.created_at = some raw) (hne : raw ≠ "")
    (hfail : parseTs (replaceZ raw) = none) :
    (CookbookSite.render_recipe parseTs r).timestamp = some ("Submitted at: " ++ raw) ∧
    (CookbookSite.render_listing parseTs rs).length = rs.length ∧
    (StreamlitCookbook.render_recipe r).timestamp = some ("Submitted at: " ++ raw) ∧
    (StreamlitCookbook.render_listing rs).length = rs.length := by
  refine ⟨?_, by simp [CookbookSite.render_listing], ?_,
    by simp [StreamlitCookbook.render_listing]⟩
  · simp [CookbookSite.render_recipe, CookbookSite.optTruthy, hc, strOrNone, hne,
      CookbookSite.render_timestamp, hfail]
  · simp [StreamlitCookbook.render_recipe, CookbookSite.optTruthy, hc, strOrNone, hne,
      StreamlitCookbook.render_timestamp]

/-- C9 witness: a concrete record with an unparsable timestamp under a
parser that always fails. -/
theorem C9_timestamp_fallback_witness :
    (CookbookSite.render_recipe (fun _ => none)
      { name := none, description := none, created_at := some "not-a-date",
        text := none, image_url := none }).timestamp = some ("Submitted at: " ++ "not-a-date") ∧
    (CookbookSite.render_listing (fun _ => none)
      [{ name := none, description := none, created_at := some "not-a-date",
         text := none, image_url := none }]).length =
      [({ name := none, description := none, created_at := some "not-a-date",
          text := none, image_url := none } : CookbookSite.StoredRecipe)].length ∧
    (StreamlitCookbook.render_recipe
      { name := none, description := none, created_at := some "not-a-date",
        text := none, image_url := none }).timestamp = some ("Submitted at: " ++ "not-a-date") ∧
    (StreamlitCookbook.render_listing
      [{ name := none, description := none, created_at := some "not-a-date",
         text := none, image_url := none }]).length =
      [({ name := none, description := none, created_at := some "not-a-date",
          text := none, image_url := none } : CookbookSite.StoredRecipe)].length :=
  C9_timestamp_fallback (fun _ => none)
    { name := none, description := none, created_at := some "not-a-date",
      text := none, image_url := none }
    "not-a-date"
    [{ name := none, description := none, created_at := some "not-a-date",
       text := none, image_url := none }]
    rfl (by decide) rfl

/-- C10: every row either pipeline of either file inserts has a
description that is absent or a non-empty string, never the empty
string: the empty short-description input is normalized to absent. -/
theorem C10_description_normalized (okA okB : Bool) (tfA tfB : TextForm)
    (env : CookbookSite.ImageEnv) (form : CookbookSite.ImageForm)
    (envT : StreamlitCookbook.ImageEnv) (formT : StreamlitCookbook.ImageForm)
    (row : RecipeRow)
    (hrow : row ∈ insertedRows (CookbookSite.text_submit okA tfA) ∨
      row ∈ insertedRows (StreamlitCookbook.text_submit okB tfB) ∨
      row ∈ insertedRows (CookbookSite.image_submit env form) ∨
      row ∈ insertedRows (StreamlitCookbook.image_submit envT formT)) :
    row.description = none ∨ ∃ s, row.description = some s ∧ s ≠ "" := by
  rcases hrow with h | h | h | h
  · rw [CookbookSite.insertedRows_text_submit] at h
    split at h
    · simp at h
    · simp at h
      subst h
      exact strOrNone_cases tfA.short_desc
  · rw [StreamlitCookbook.insertedRows_text_submit_streamlit] at h
    split at h
    · simp at h
    · simp at h
      subst h
      exact strOrNone_cases tfB.short_desc
  · obtain ⟨url, hurl, rfl⟩ := CookbookSite.insertedRows_image_submit env form row h
    exact strOrNone_cases form.short_desc_img
  · obtain ⟨url, hurl, rfl⟩ := StreamlitCookbook.insertedRows_image_submit_streamlit envT formT row h
    exact strOrNone_cases formT.short_desc_img

/-- C10 witness: a concrete text submission with an empty short
description. -/
theorem C10_description_normalized_witness :
    ({ name := "Pancakes"
       description := none
       text := some "Ingredients:\n2 eggs\n\nInstructions:\nMix"
       image_url := none } : RecipeRow).description = none ∨
    ∃ s, ({ name := "Pancakes"
            description := none
            text := some "Ingredients:\n2 eggs\n\nInstructions:\nMix"
            image_url := none } : RecipeRow).description = some s ∧ s ≠ "" :=
  C10_description_normalized true true
    { name := "Pancakes", short_desc := "", ingredients := "2 eggs", instructions := "Mix" }
    { name := "Pancakes", short_desc := "", ingredients := "2 eggs", instructions := "Mix" }
    { tesseractAvailable := false, engineText := none, uploadUrl := none,
      insertOk := true, decodeOk := true, uuid := "id0" }
    { name_img := "", short_desc_img := "", uploaded := none, notes := "", edit := none }
    { engineText := none, uploadUrl := none, insertOk := true, decodeOk := true, uuid := "id1" }
    { name_img := "", short_desc_img := "", uploaded := none, notes := "" }
    { name := "Pancakes"
      description := none
      text := some "Ingredients:\n2 eggs\n\nInstructions:\nMix"
      image_url := none }
    (Or.inl (by decide))
